import Mathlib

/-!
Verification of the `analyzer` repository: a shallow embedding of the
IRS Form 990 ingestion pipeline (xmlParser / datasetService), the
persistence layer (models + saveToDatabase) and the read-side analytics
(companiesController, dataHelper), together with proofs deciding the
frozen claims about the natural-language specification.

JavaScript numbers are modelled as rationals (`ℚ`); `null`/`undefined`
are modelled explicitly where the code distinguishes them from numbers.
-/

namespace Analyzer

/-- A JavaScript value as produced by fast-xml-parser and manipulated by
the helpers in `dataHelper.js` / `xmlParser.js`. -/
inductive JSVal where
  | undefined : JSVal
  | nullv : JSVal
  | bool : Bool → JSVal
  | num : ℚ → JSVal
  | str : String → JSVal
  | obj : List (String × JSVal) → JSVal
  | arr : List JSVal → JSVal

/-- JavaScript truthiness. (`NaN` never reaches a truthiness test in the
modelled code paths, so `num` carries a plain rational.) -/
def truthy : JSVal → Bool
  | .undefined => false
  | .nullv => false
  | .bool b => b
  | .num q => q != 0
  | .str s => s != ""
  | .obj _ => true
  | .arr _ => true

/-- JavaScript `a || b`: the first operand if truthy, else the second. -/
def jsOr (a b : JSVal) : JSVal :=
  if truthy a then a else b

/-- Property access `v.key` (and `v?.key`): field lookup on objects,
`undefined` on everything else (the source only dereferences non-objects
behind optional chaining or on values where access yields undefined). -/
def jsGet (v : JSVal) (key : String) : JSVal :=
  match v with
  | .obj fields =>
    match fields.find? (fun kv => kv.1 == key) with
    | some kv => kv.2
    | none => .undefined
  | _ => .undefined

/-- Decimal rendering of a rational for JS `String(number)`. All numeric
values in the modelled documents are integral; non-integral rationals
(which no modelled code path produces from a parsed document) fall back
to the numerator/denominator rendering. -/
def ratToString (q : ℚ) : String :=
  if q.den = 1 then toString q.num else toString q

mutual

/-- JavaScript `String(v)` / template-literal interpolation. -/
def jsToString : JSVal → String
  | .undefined => "undefined"
  | .nullv => "null"
  | .bool true => "true"
  | .bool false => "false"
  | .num q => ratToString q
  | .str s => s
  | .obj _ => "[object Object]"
  | .arr xs => String.intercalate "," (jsToStringList xs)

/-- Array elements stringify recursively, except that `null` and
`undefined` elements render as the empty string inside `Array.join`. -/
def jsToStringList : List JSVal → List String
  | [] => []
  | .undefined :: xs => "" :: jsToStringList xs
  | .nullv :: xs => "" :: jsToStringList xs
  | x :: xs => jsToString x :: jsToStringList xs

end

/-- JS `String.prototype.trim`: strip leading and trailing whitespace
(written structurally over the character list so that concrete values
reduce inside the kernel). -/
def jsTrim (s : String) : String :=
  String.mk (((s.toList.dropWhile (fun c => c.isWhitespace)).reverse.dropWhile
    (fun c => c.isWhitespace)).reverse)

/-- Embedding of `extractText` (dataHelper.js). Falsy input gives `null`;
strings pass through; objects yield their `_text` or `_` field (the raw
field value, which need not be a string) or `null`; arrays fall into the
`typeof value === 'object'` branch and yield `null` (they carry no
`_text` field); remaining primitives are stringified. The JS return
value is a JS value (string, null, or a raw `_text` payload), so the
embedding returns `JSVal`, with `JSVal.nullv` for JS `null`. -/
def extractText (v : JSVal) : JSVal :=
  if truthy v = false then .nullv
  else
    match v with
    | .str s => .str s
    | .obj fields =>
      let t := jsOr (jsGet (.obj fields) "_text") (jsGet (.obj fields) "_")
      if truthy t then t else .nullv
    | .arr _ => .nullv
    | w => .str (jsToString w)

/-- Characters kept by `String(text).replace(/[^0-9.-]/g, '')`. -/
def stripNonNumeric (s : String) : String :=
  String.mk (s.toList.filter (fun c => c.isDigit || c == '.' || c == '-'))

/-- Digit-list accumulator for decimal parsing. -/
def digitsToNat (ds : List Char) : ℕ :=
  ds.foldl (fun a c => a * 10 + (c.toNat - 48)) 0

/-- JavaScript `parseFloat` restricted to its use site: the input has
already been stripped to the characters `0-9`, `.`, `-`. Parses an
optional leading minus sign, an integer part, and an optional fractional
part, taking the longest valid numeric lead of the string; `none` models
`NaN` (no digit found). -/
def jsParseFloat (s : String) : Option ℚ :=
  let cs := s.toList
  let neg := cs.head? = some '-'
  let cs1 := if neg then cs.tail else cs
  let intPart := cs1.takeWhile (fun c => c.isDigit)
  let rest := cs1.dropWhile (fun c => c.isDigit)
  let fracPart :=
    match rest with
    | '.' :: r => r.takeWhile (fun c => c.isDigit)
    | _ => []
  if intPart.isEmpty && fracPart.isEmpty then none
  else
    let mag : ℚ :=
      (digitsToNat intPart : ℚ) + (digitsToNat fracPart : ℚ) / ((10 : ℚ) ^ fracPart.length)
    some (if neg then -mag else mag)

/-- Embedding of `extractNumber` (dataHelper.js): resolve text via
`extractText`; falsy text gives `0`; otherwise strip every character
that is not a digit, `.` or `-` and `parseFloat`, with `0` for `NaN`. -/
def extractNumber (v : JSVal) : ℚ :=
  let text := extractText v
  if truthy text = false then 0
  else
    match jsParseFloat (stripNonNumeric (jsToString text)) with
    | some q => q
    | none => 0

/-- Embedding of `calculateAbsoluteChange` (dataHelper.js); `none`
models a `null`/`undefined` previous value and a `null` result. -/
def calculateAbsoluteChange (current : ℚ) (previous : Option ℚ) : Option ℚ :=
  match previous with
  | none => none
  | some p => some (current - p)

/-- Embedding of `calculatePercentageChange` (dataHelper.js): `null` for
a missing previous value; for `previous = 0`, `100` if `current > 0`
else `0`; otherwise the exact relative change in percent. -/
def calculatePercentageChange (current : ℚ) (previous : Option ℚ) : Option ℚ :=
  match previous with
  | none => none
  | some p =>
    if p = 0 then some (if 0 < current then 100 else 0)
    else some ((current - p) / p * 100)

/-- A stored organization row (`Company` model, models/Company.js): the
four previous-year columns are nullable (`DECIMAL`/`INTEGER` with
`allowNull: true`), modelled as `Option ℚ`; the ingestion path always
writes numbers into every financial column, and the current-year columns
are consumed as numbers by the controller, so they are modelled as `ℚ`. -/
structure CompanyRow where
  id : ℕ
  ein : String
  name : String
  website : Option String
  mission : Option String
  taxYear : ℚ
  currentRevenue : ℚ
  currentExpenses : ℚ
  currentAssets : ℚ
  currentEmployeeCount : ℚ
  previousRevenue : Option ℚ
  previousExpenses : Option ℚ
  previousAssets : Option ℚ
  previousEmployeeCount : Option ℚ
deriving DecidableEq

/-- The `hasPreviousData` check of companiesController.js (lines 90-97
and 180-187): every one of the four previous-year fields must be neither
`null` nor `undefined`. -/
def hasPreviousData (r : CompanyRow) : Bool :=
  r.previousRevenue.isSome && r.previousExpenses.isSome &&
  r.previousAssets.isSome && r.previousEmployeeCount.isSome

/-- One metric's (absolute, percentage) year-over-year change. -/
structure DeltaPair where
  absolute : Option ℚ
  percentage : Option ℚ
deriving DecidableEq

/-- The four delta pairs attached to an API response. -/
structure Deltas where
  revenue : DeltaPair
  expenses : DeltaPair
  assets : DeltaPair
  employees : DeltaPair
deriving DecidableEq

/-- The delta block computed per company row: each of the eight
components is `hasPreviousData ? calculate*Change(current, previous)
: null`, exactly as in companiesController.js. -/
def computeDeltas (r : CompanyRow) : Deltas :=
  let hasPrev := hasPreviousData r
  { revenue :=
      { absolute := if hasPrev then calculateAbsoluteChange r.currentRevenue r.previousRevenue else none
        percentage := if hasPrev then calculatePercentageChange r.currentRevenue r.previousRevenue else none }
    expenses :=
      { absolute := if hasPrev then calculateAbsoluteChange r.currentExpenses r.previousExpenses else none
        percentage := if hasPrev then calculatePercentageChange r.currentExpenses r.previousExpenses else none }
    assets :=
      { absolute := if hasPrev then calculateAbsoluteChange r.currentAssets r.previousAssets else none
        percentage := if hasPrev then calculatePercentageChange r.currentAssets r.previousAssets else none }
    employees :=
      { absolute := if hasPrev then calculateAbsoluteChange r.currentEmployeeCount r.previousEmployeeCount else none
        percentage := if hasPrev then calculatePercentageChange r.currentEmployeeCount r.previousEmployeeCount else none } }

/-- Delta block of the paginated listing (`getAllCompanies`,
companiesController.js lines 86-120); the source text of this block is
identical to the detail endpoint's. -/
def listingDeltas (r : CompanyRow) : Deltas := computeDeltas r

/-- Delta block of the single-record detail endpoint (`getCompanyById`,
companiesController.js lines 180-207); the source text of this block is
identical to the listing's. -/
def detailDeltas (r : CompanyRow) : Deltas := computeDeltas r

/-- The all-null delta block. -/
def nullDeltas : Deltas :=
  { revenue := ⟨none, none⟩, expenses := ⟨none, none⟩
    assets := ⟨none, none⟩, employees := ⟨none, none⟩ }

/-- Embedding of `calculateClassification` (companiesController.js lines
244-269), returning the classification's `type` string. The percentage
deltas may be `null`; a JS relational comparison coerces `null` to `0`,
so `Option.getD 0` models the comparison's operands. -/
def calculateClassification (currentRevenue currentExpenses : ℚ)
    (revenuePct expensesPct : Option ℚ) : String :=
  let isProfitable := currentRevenue > currentExpenses
  let isScaling := expensesPct.getD 0 > revenuePct.getD 0
  if isProfitable && !isScaling then "Profitable"
  else if isScaling then "Scaling"
  else "Restructuring"

/-- Embedding of `calculateStaffingGrowth` (companiesController.js lines
274-313), returning the badge string. The input is the employee delta's
`percentage`, which may be `null`: JS coerces `null` to `0` in the `>=`
and `>` comparisons, while the strict `=== 0` comparison is false for
`null`, which is why a `null` growth rate falls through every branch
into the final `else`. -/
def calculateStaffingGrowth (percentage : Option ℚ) : String :=
  let g : ℚ := percentage.getD 0
  if g ≥ 20 then "Rapid Growth"
  else if g ≥ 10 then "Steady Growth"
  else if g > 0 then "Modest Growth"
  else if percentage = some 0 then "Stable"
  else "Downsizing"

/-- A thrown JS exception observable at the modelled granularity. -/
inductive JsError where
  | typeError : JsError
  | stageError : String → JsError
deriving DecidableEq

/-- JS `Number.prototype.toFixed(2)` modelled as rounding to two decimal
places (the claims never depend on the rounding direction or on the
string formatting of the result). -/
def toFixed2 (q : ℚ) : ℚ := (round (q * 100) : ℚ) / 100

/-- The analytics block of the detail endpoint. `profitMargin` and
`assetGrowthRate` are `toFixed` strings in the response; they are
modelled by their rounded numeric value. -/
structure Analytics where
  classification : String
  staffingGrowth : String
  netIncome : ℚ
  profitMargin : ℚ
  assetGrowthRate : ℚ
deriving DecidableEq

/-- Embedding of the analytics computation of `getCompanyById`
(companiesController.js lines 209-225). The object literal evaluates
`classification`, then `staffingGrowth`, then `financialHealth`; inside
the latter, `deltas.assets.percentage.toFixed(2)` throws a `TypeError`
when the percentage is `null`, which the model surfaces as
`Except.error JsError.typeError`. -/
def buildAnalytics (r : CompanyRow) : Except JsError Analytics :=
  let deltas := detailDeltas r
  let classification :=
    calculateClassification r.currentRevenue r.currentExpenses
      deltas.revenue.percentage deltas.expenses.percentage
  let staffing := calculateStaffingGrowth deltas.employees.percentage
  let netIncome := r.currentRevenue - r.currentExpenses
  let profitMargin :=
    if 0 < r.currentRevenue then toFixed2 ((r.currentRevenue - r.currentExpenses) / r.currentRevenue * 100)
    else 0
  match deltas.assets.percentage with
  | none => .error .typeError
  | some q => .ok ⟨classification, staffing, netIncome, profitMargin, toFixed2 q⟩

/-- HTTP status of `getCompanyById` for a row that was found: `200` on
success, `500` when the analytics computation throws (the surrounding
`try`/`catch` maps any exception to a 500 response). -/
def getCompanyByIdStatus (r : CompanyRow) : ℕ :=
  match buildAnalytics r with
  | .ok _ => 200
  | .error _ => 500

/-- Output record of `extractFinancialData` (xmlParser.js lines
123-191): every field is produced by `extractNumber` and is therefore a
number, never `null`. -/
structure FinancialData where
  currentRevenue : ℚ
  currentExpenses : ℚ
  currentAssets : ℚ
  currentEmployeeCount : ℚ
  previousRevenue : ℚ
  previousExpenses : ℚ
  previousAssets : ℚ
  previousEmployeeCount : ℚ
deriving DecidableEq

/-- Embedding of `extractFinancialData` (xmlParser.js): each quantity is
resolved through its priority-ordered `||` fallback chain of alternate
field names and fed to `extractNumber`. -/
def extractFinancialData (irs990 : JSVal) : FinancialData :=
  let currentRevenue := extractNumber (jsOr (jsGet irs990 "CYTotalRevenueAmt")
    (jsOr (jsGet irs990 "TotalRevenueAmt")
      (jsOr (jsGet (jsGet irs990 "TotalRevenueGrp") "TotalRevenueColumnAmt")
        (jsOr (jsGet irs990 "RevenueAmt") (jsGet irs990 "TotalRevenue")))))
  let currentExpenses := extractNumber (jsOr (jsGet irs990 "CYTotalExpensesAmt")
    (jsOr (jsGet irs990 "TotalExpensesAmt")
      (jsOr (jsGet (jsGet irs990 "TotalExpensesGrp") "TotalExpensesColumnAmt")
        (jsOr (jsGet irs990 "ExpensesAmt") (jsGet irs990 "TotalExpenses")))))
  let currentAssets := extractNumber (jsOr (jsGet irs990 "TotalAssetsEOYAmt")
    (jsOr (jsGet (jsGet irs990 "TotalAssetsGrp") "EOYAmt")
      (jsOr (jsGet (jsGet irs990 "Form990TotalAssetsGrp") "EOYAmt")
        (jsGet irs990 "TotalAssets"))))
  let currentEmployees := extractNumber (jsOr (jsGet irs990 "TotalEmployeeCnt")
    (jsOr (jsGet irs990 "TotalNbrEmployees") (jsGet irs990 "NumberOfEmployees")))
  let previousRevenue := extractNumber (jsOr (jsGet irs990 "PYTotalRevenueAmt")
    (jsOr (jsGet (jsGet irs990 "TotalRevenueGrp") "PriorYearAmt") (.num 0)))
  let previousExpenses := extractNumber (jsOr (jsGet irs990 "PYTotalExpensesAmt")
    (jsOr (jsGet (jsGet irs990 "TotalExpensesGrp") "PriorYearAmt") (.num 0)))
  let previousAssets := extractNumber (jsOr (jsGet irs990 "TotalAssetsBOYAmt")
    (jsOr (jsGet (jsGet irs990 "TotalAssetsGrp") "BOYAmt")
      (jsOr (jsGet (jsGet irs990 "Form990TotalAssetsGrp") "BOYAmt") (.num 0))))
  let previousEmployees := extractNumber (jsOr (jsGet irs990 "PYTotalEmployeeCnt") (.num 0))
  { currentRevenue := currentRevenue
    currentExpenses := currentExpenses
    currentAssets := currentAssets
    currentEmployeeCount := currentEmployees
    previousRevenue := previousRevenue
    previousExpenses := previousExpenses
    previousAssets := previousAssets
    previousEmployeeCount := previousEmployees }

/-- A personnel record as pushed by `extractPersonnel`: `fullName` and
`title` are the raw JS values produced by the `||` chains (normally
strings), `compensation` the numeric sum. -/
structure ParsedPersonnel where
  fullName : JSVal
  title : JSVal
  compensation : ℚ

/-- Strict equality test against the string `'Unknown'` (`fullName !==
'Unknown'`): only the exact string compares equal. -/
def isStrUnknown : JSVal → Bool
  | .str s => s == "Unknown"
  | _ => false

/-- Embedding of `extractPersonnel` (xmlParser.js lines 196-248): locate
the officers collection through its fallback chain, normalize a bare
object to a one-element array, and for each truthy entry compute the
full name (composed name field, else the template literal interpolating
the `FirstName`/`LastName` texts — `null` interpolates as the string
"null" — trimmed), the title and the three-component compensation sum;
push the record when the full name is truthy and not strictly equal to
`'Unknown'`. -/
def extractPersonnel (irs990 : JSVal) : List ParsedPersonnel :=
  let officersList := jsOr (jsGet irs990 "Form990PartVIISectionAGrp")
    (jsOr (jsGet irs990 "OfficerDirectorTrusteeEmplGrp")
      (jsOr (jsGet irs990 "Officers") (.arr [])))
  let officers := match officersList with | .arr xs => xs | v => [v]
  officers.filterMap (fun officer =>
    if truthy officer = false then none
    else
      let personName := jsOr (jsGet officer "PersonNm")
        (jsOr (jsGet officer "Name") (jsGet officer "PersonName"))
      let fullName := jsOr (extractText personName)
        (.str (jsTrim (jsToString (extractText (jsGet personName "FirstName")) ++ " " ++
          jsToString (extractText (jsGet personName "LastName")))))
      let title := jsOr (extractText (jsGet officer "TitleTxt"))
        (jsOr (extractText (jsGet officer "Title")) (.str "Unknown"))
      let reportableComp := extractNumber (jsOr (jsGet officer "ReportableCompFromOrgAmt")
        (jsOr (jsGet officer "TotalCompensationFilingOrgAmt")
          (jsOr (jsGet officer "Compensation") (.num 0))))
      let otherComp := extractNumber (jsOr (jsGet officer "OtherCompensationAmt") (.num 0))
      let relatedComp := extractNumber (jsOr (jsGet officer "ReportableCompFromRltdOrgAmt") (.num 0))
      let compensation := reportableComp + otherComp + relatedComp
      if truthy fullName && !isStrUnknown fullName then
        some ⟨fullName, title, compensation⟩
      else none)

/-- The canonical company record produced by the mapper, i.e. the merge
`{ ...companyData, ...financialData }` built in `parse` (xmlParser.js
lines 69-73), restricted to the attributes that exist as columns of the
`Company` model (Sequelize silently drops the others, e.g. `formType`).
`ein` is the stringified EIN as stored into the `STRING` column, with
`""` modelling the falsy `null` of a document without an EIN. -/
structure CompanyData where
  ein : String
  name : String
  website : Option String
  mission : Option String
  taxYear : ℚ
  currentRevenue : ℚ
  currentExpenses : ℚ
  currentAssets : ℚ
  currentEmployeeCount : ℚ
  previousRevenue : ℚ
  previousExpenses : ℚ
  previousAssets : ℚ
  previousEmployeeCount : ℚ
deriving DecidableEq

/-- The merge `{ ...companyData, ...financialData }`: the financial
fields of the canonical record are exactly the mapper's
`extractFinancialData` output. -/
def mappedCompany (ein name : String) (website mission : Option String)
    (taxYear : ℚ) (f : FinancialData) : CompanyData :=
  { ein := ein, name := name, website := website, mission := mission
    taxYear := taxYear
    currentRevenue := f.currentRevenue
    currentExpenses := f.currentExpenses
    currentAssets := f.currentAssets
    currentEmployeeCount := f.currentEmployeeCount
    previousRevenue := f.previousRevenue
    previousExpenses := f.previousExpenses
    previousAssets := f.previousAssets
    previousEmployeeCount := f.previousEmployeeCount }

/-- A personnel child entry of the canonical record (DB-typed: the
`STRING` columns hold the stringified values). -/
structure PersonnelEntry where
  fullName : String
  title : String
  compensation : ℚ
deriving DecidableEq

/-- An expense-category child entry of the canonical record. -/
structure ExpenseEntry where
  category : String
  amount : ℚ
deriving DecidableEq

/-- The full mapper output handed to `saveToDatabase`. -/
structure ParsedRecord where
  company : CompanyData
  personnel : List PersonnelEntry
  expenses : List ExpenseEntry
deriving DecidableEq

/-- A row of the `personnel` table. -/
structure PersonnelRow where
  companyId : ℕ
  fullName : String
  title : String
  compensation : ℚ
  taxYear : ℚ
deriving DecidableEq

/-- A row of the `expense_categories` table. -/
structure ExpenseRow where
  companyId : ℕ
  category : String
  amount : ℚ
  taxYear : ℚ
deriving DecidableEq

/-- The persistent state: the three tables plus the auto-increment
counter for `companies.id`. Lists model the tables as multisets (SQL row
order is immaterial). -/
structure DB where
  companies : List CompanyRow
  personnel : List PersonnelRow
  expenses : List ExpenseRow
  nextId : ℕ
deriving DecidableEq

/-- The company row written by the upsert: all scalar columns come from
the record, with the `taxYear: companyData.taxYear || new
Date().getFullYear()` fallback (JS `0` is falsy), and every
previous-year column receives the record's number (never `null`). -/
def rowOfRecord (id : ℕ) (nowYear : ℚ) (c : CompanyData) : CompanyRow :=
  { id := id
    ein := c.ein
    name := c.name
    website := c.website
    mission := c.mission
    taxYear := if c.taxYear = 0 then nowYear else c.taxYear
    currentRevenue := c.currentRevenue
    currentExpenses := c.currentExpenses
    currentAssets := c.currentAssets
    currentEmployeeCount := c.currentEmployeeCount
    previousRevenue := some c.previousRevenue
    previousExpenses := some c.previousExpenses
    previousAssets := some c.previousAssets
    previousEmployeeCount := some c.previousEmployeeCount }

/-- Embedding of `Company.upsert(..., conflictFields: ['ein'])`: if a
row with the record's `ein` exists, overwrite its scalar columns in
place (keeping its `id`); otherwise insert a fresh row with the next
auto-increment id. Returns the updated state and the id of the
touched row. -/
def upsertCompany (c : CompanyData) (nowYear : ℚ) (db : DB) : DB × ℕ :=
  match db.companies.find? (fun r => r.ein == c.ein) with
  | some existing =>
    ({ db with companies :=
        db.companies.map (fun r => if r.ein == c.ein then rowOfRecord r.id nowYear c else r) },
      existing.id)
  | none =>
    ({ db with
        companies := db.companies ++ [rowOfRecord db.nextId nowYear c],
        nextId := db.nextId + 1 },
      db.nextId)

/-- The personnel row inserted by the bulk-create: the parsed entry plus
the parent id and the record's raw `taxYear` (no current-year
fallback here, unlike the parent row). -/
def personnelRowOf (companyId : ℕ) (taxYear : ℚ) (p : PersonnelEntry) : PersonnelRow :=
  { companyId := companyId, fullName := p.fullName, title := p.title
    compensation := p.compensation, taxYear := taxYear }

/-- The expense row inserted by the bulk-create. -/
def expenseRowOf (companyId : ℕ) (taxYear : ℚ) (e : ExpenseEntry) : ExpenseRow :=
  { companyId := companyId, category := e.category, amount := e.amount
    taxYear := taxYear }

/-- Embedding of `saveToDatabase` (datasetService.js lines 197-237):
throw if the EIN is falsy; upsert the parent row on the `ein` conflict
key; `destroy` every personnel and expense row scoped to the parent id;
bulk-insert the record's children. (The source guards the bulk-creates
with `length > 0`; inserting an empty list is the same operation. The
child tables carry no unique constraint, so `ignoreDuplicates` never
drops a row.) -/
def saveToDatabase (data : ParsedRecord) (nowYear : ℚ) (db : DB) : Except String DB :=
  if data.company.ein = "" then .error "Company EIN is required"
  else
    let up := upsertCompany data.company nowYear db
    let db1 := up.1
    let companyId := up.2
    let keptPersonnel := db1.personnel.filter (fun p => !(p.companyId == companyId))
    let keptExpenses := db1.expenses.filter (fun e => !(e.companyId == companyId))
    let newPersonnel := data.personnel.map (personnelRowOf companyId data.company.taxYear)
    let newExpenses := data.expenses.map (expenseRowOf companyId data.company.taxYear)
    .ok { db1 with
      personnel := keptPersonnel ++ newPersonnel
      expenses := keptExpenses ++ newExpenses }

/-- The JS value held by the run statistics' `errors` property. The
object literal in `processDataset` declares `errors: 0` and then
`errors: []` (a duplicate key, the array wins), and the catch block then
treats the property both as a counter (`stats.errors++`) and as a list
(`stats.errors.push`), so the property's type varies at run time:
a number (`none` modelling `NaN`) or an array of messages. -/
inductive ErrorsVal where
  | num : Option ℚ → ErrorsVal
  | list : List String → ErrorsVal
deriving DecidableEq

/-- JS `Number(string)`: empty/whitespace gives `0`; otherwise the full
string must be a signed decimal numeral, else `NaN` (`none`). Exponent,
hexadecimal and `Infinity` forms do not occur in the modelled strings
and are not modelled. -/
def jsNumberOfString (s : String) : Option ℚ :=
  let t := jsTrim s
  if t = "" then some 0
  else
    let cs := t.toList
    let neg := cs.head? = some '-'
    let signed := cs.head? = some '-' || cs.head? = some '+'
    let cs1 := if signed then cs.tail else cs
    let ip := cs1.takeWhile (fun c => c.isDigit)
    let rest := cs1.dropWhile (fun c => c.isDigit)
    let sgn : ℚ := if neg then -1 else 1
    match rest with
    | [] =>
      if ip.isEmpty then none else some (sgn * (digitsToNat ip : ℚ))
    | '.' :: r =>
      if r.all (fun c => c.isDigit) && !(ip.isEmpty && r.isEmpty) then
        some (sgn * ((digitsToNat ip : ℚ) + (digitsToNat r : ℚ) / ((10 : ℚ) ^ r.length)))
      else none
    | _ => none

/-- JS `ToNumber` of an array (reached by `stats.errors++` when the
property holds the array): `[]` coerces to `0`, a one-element array
coerces via its element's string, anything longer joins with commas and
is `NaN` for the non-numeric message strings stored here. -/
def errListToNumber : List String → Option ℚ
  | [] => some 0
  | [s] => jsNumberOfString s
  | _ => none

/-- The statement `stats.errors++`: coerce the current value to a number
and store the successor; an array value is thereby destroyed and
replaced by a number (or `NaN`). -/
def incrErrors : ErrorsVal → ErrorsVal
  | .num (some n) => .num (some (n + 1))
  | .num none => .num none
  | .list xs =>
    match errListToNumber xs with
    | some n => .num (some (n + 1))
    | none => .num none

/-- The statement `stats.errors.push(msg)`: appends when the property
still holds an array; a number has no `push` method, so the call throws
a `TypeError`. -/
def pushErrors (e : ErrorsVal) (msg : String) : Except JsError ErrorsVal :=
  match e with
  | .list xs => .ok (.list (xs ++ [msg]))
  | .num _ => .error .typeError

/-- The per-run statistics object (`startTime`/`duration` wall-clock
fields omitted: real time is outside the embedding). -/
structure RunStats where
  totalFiles : ℕ
  processed : ℕ
  saved : ℕ
  errors : ErrorsVal
deriving DecidableEq

/-- The statistics after the literal's duplicate `errors` keys resolve
and `stats.totalFiles = xmlFiles.length` has run. -/
def initialStats (total : ℕ) : RunStats :=
  { totalFiles := total, processed := 0, saved := 0, errors := .list [] }

/-- Abstract outcome of handling one candidate XML file:
`parseFail` — `parser.parse` returned `null` (malformed markup, no
recognized form variant, or missing EIN; the parser catches its own
exceptions); `saveFail` — `saveToDatabase` (or the file read) threw with
the given message; `success` — the record was saved. -/
inductive DocOutcome where
  | parseFail : DocOutcome
  | saveFail : String → DocOutcome
  | success : DocOutcome
deriving DecidableEq

/-- Embedding of `processXmlFile` (datasetService.js lines 171-192):
`stats.processed++` happens first; a parse failure merely logs and
returns; a save failure throws (second component carries the thrown
message); success increments `stats.saved`. -/
def processXmlFile (d : DocOutcome) (s : RunStats) : RunStats × Option String :=
  let s1 : RunStats := { s with processed := s.processed + 1 }
  match d with
  | .parseFail => (s1, none)
  | .saveFail msg => (s1, some msg)
  | .success => ({ s1 with saved := s1.saved + 1 }, none)

/-- The Step-4 loop of `processDataset` (datasetService.js lines
57-72). On a successful iteration the `maxCompanies && stats.saved >=
maxCompanies` early break is checked (`maxCompanies = none` models the
falsy `null`/`0`). When `processXmlFile` throws, the catch block runs
`stats.errors++` and then `stats.errors.push(...)`; if the push itself
throws (it does whenever the property no longer holds an array), that
exception escapes the catch and aborts the whole loop. -/
def processLoop (maxCompanies : Option ℕ) : List DocOutcome → RunStats → Except JsError RunStats
  | [], s => .ok s
  | d :: ds, s =>
    match processXmlFile d s with
    | (s1, none) =>
      match maxCompanies with
      | some m => if m ≤ s1.saved then .ok s1 else processLoop (some m) ds s1
      | none => processLoop none ds s1
    | (s1, some msg) =>
      match pushErrors (incrErrors s1.errors) ("Error processing file: " ++ msg) with
      | .ok e2 => processLoop maxCompanies ds { s1 with errors := e2 }
      | .error je => .error je

/-- Environment of one ingestion run: whether the download and the
archive expansion succeed, the outcome of each enumerated candidate
document, and the caller's `maxCompanies` cap. -/
structure RunInput where
  downloadOk : Bool
  extractOk : Bool
  docs : List DocOutcome
  maxCompanies : Option ℕ
deriving DecidableEq

/-- Which cleanup actions ran before `processDataset` returned or threw:
`archiveRemoved` — `fsPromises.unlink(tempPath)`; `extractDirRemoved` —
`deleteDirectory(extractPath)`. -/
structure CleanupLog where
  archiveRemoved : Bool
  extractDirRemoved : Bool
deriving DecidableEq

/-- Result of a run: normal return with statistics, or a thrown error. -/
inductive RunOutcome where
  | completed : RunStats → RunOutcome
  | threw : JsError → RunOutcome
deriving DecidableEq

/-- Embedding of `processDataset` (datasetService.js lines 24-94).
Download failure throws with `tempPath` still `null`, so the outer catch
removes nothing. Extraction failure throws after the working directory
was created inside `extractZipFile`; the outer catch unlinks only the
archive. Otherwise the candidate list is truncated to `maxCompanies`
(`slice(0, maxCompanies)` when truthy) and the loop runs; on normal loop
completion Step 5 removes the directory and the archive, while an
exception escaping the loop reaches the outer catch, which unlinks only
the archive and rethrows. -/
def processDataset (inp : RunInput) : RunOutcome × CleanupLog :=
  if inp.downloadOk = false then
    (.threw (.stageError "download failed"), ⟨false, false⟩)
  else if inp.extractOk = false then
    (.threw (.stageError "extraction failed"), ⟨true, false⟩)
  else
    let files := match inp.maxCompanies with
      | some m => inp.docs.take m
      | none => inp.docs
    match processLoop inp.maxCompanies files (initialStats inp.docs.length) with
    | .ok s => (.completed s, ⟨true, true⟩)
    | .error e => (.threw e, ⟨true, false⟩)

/-- JS `parseInt(string)` as used on the `page`/`limit` query
parameters: skip leading whitespace, accept an optional sign, then take
the longest run of decimal digits; no digit means `NaN` (`none`).
(Automatic radix-16 detection of `0x` literals is not modelled.) -/
def jsParseInt (s : String) : Option ℤ :=
  let cs := s.toList.dropWhile (fun c => c.isWhitespace)
  let neg := cs.head? = some '-'
  let signed := cs.head? = some '-' || cs.head? = some '+'
  let cs1 := if signed then cs.tail else cs
  let ds := cs1.takeWhile (fun c => c.isDigit)
  if ds.isEmpty then none
  else
    let n : ℤ := digitsToNat ds
    some (if neg then -n else n)

/-- Response of the listing endpoint at the modelled granularity. -/
inductive ListResponse where
  | badRequest : String → ListResponse
  | ok : List CompanyRow → ℕ → ℤ → ℤ → ListResponse
deriving DecidableEq

/-- Embedding of the validation and query of `getAllCompanies`
(companiesController.js lines 16-137). `db` stands for the company
table after the search filter and sort of the request have been applied
(they do not affect how many rows a `limit`/`offset` query returns).
The second component records whether `findAndCountAll` was reached. -/
def getAllCompanies (db : List CompanyRow) (page limit : Option String) :
    ListResponse × Bool :=
  let pageNum := jsParseInt (page.getD "1")
  let limitNum := jsParseInt (limit.getD "25")
  match pageNum with
  | none => (.badRequest "Invalid page number", false)
  | some p =>
    if p < 1 then (.badRequest "Invalid page number", false)
    else
      match limitNum with
      | none => (.badRequest "Invalid limit. Must be between 1 and 100", false)
      | some l =>
        if l < 1 || 100 < l then (.badRequest "Invalid limit. Must be between 1 and 100", false)
        else
          let rows := (db.drop ((p - 1).toNat * l.toNat)).take l.toNat
          (.ok rows db.length p l, true)

/-- Resolution of one officer entry's full name, exactly as computed
inside the `forEach` of `extractPersonnel`: the composed name field's
text if truthy, else the trimmed template literal interpolating the
`FirstName`/`LastName` texts (a `null` text interpolates as the string
"null"). -/
def resolveOfficerName (officer : JSVal) : JSVal :=
  let personName := jsOr (jsGet officer "PersonNm")
    (jsOr (jsGet officer "Name") (jsGet officer "PersonName"))
  jsOr (extractText personName)
    (.str (jsTrim (jsToString (extractText (jsGet personName "FirstName")) ++ " " ++
      jsToString (extractText (jsGet personName "LastName")))))

/-- Resolution of one officer entry's title (default "Unknown"). -/
def resolveOfficerTitle (officer : JSVal) : JSVal :=
  jsOr (extractText (jsGet officer "TitleTxt"))
    (jsOr (extractText (jsGet officer "Title")) (.str "Unknown"))

/-- Total compensation of one officer entry: the sum of the three
independently-defaulting components. -/
def officerCompensation (officer : JSVal) : ℚ :=
  extractNumber (jsOr (jsGet officer "ReportableCompFromOrgAmt")
    (jsOr (jsGet officer "TotalCompensationFilingOrgAmt")
      (jsOr (jsGet officer "Compensation") (.num 0)))) +
  extractNumber (jsOr (jsGet officer "OtherCompensationAmt") (.num 0)) +
  extractNumber (jsOr (jsGet officer "ReportableCompFromRltdOrgAmt") (.num 0))

/-- The normalized officers array: the collection located through its
fallback chain, with a bare non-array value wrapped as a one-element
array. -/
def normalizeOfficers (irs990 : JSVal) : List JSVal :=
  let officersList := jsOr (jsGet irs990 "Form990PartVIISectionAGrp")
    (jsOr (jsGet irs990 "OfficerDirectorTrusteeEmplGrp")
      (jsOr (jsGet irs990 "Officers") (.arr [])))
  match officersList with | .arr xs => xs | v => [v]

/-- All eight components of a delta block are computed (non-null). -/
def allDeltasComputed (d : Deltas) : Bool :=
  d.revenue.absolute.isSome && d.revenue.percentage.isSome &&
  d.expenses.absolute.isSome && d.expenses.percentage.isSome &&
  d.assets.absolute.isSome && d.assets.percentage.isSome &&
  d.employees.absolute.isSome && d.employees.percentage.isSome

/-- The `page` parameter validation outcome: parses and is at least 1. -/
def pageParamOk (page : Option String) : Bool :=
  match jsParseInt (page.getD "1") with
  | some p => 1 ≤ p
  | none => false

/-- The `limit` parameter validation outcome: parses and lies in 1..100. -/
def limitParamOk (limit : Option String) : Bool :=
  match jsParseInt (limit.getD "25") with
  | some l => 1 ≤ l && l ≤ 100
  | none => false

/-- Example stored row whose four previous-year columns are all null. -/
def exampleRowNoPrev : CompanyRow :=
  { id := 1, ein := "11-0000001", name := "Alpha Org", website := none, mission := none
    taxYear := 2023, currentRevenue := 10, currentExpenses := 5
    currentAssets := 3, currentEmployeeCount := 7
    previousRevenue := none, previousExpenses := none
    previousAssets := none, previousEmployeeCount := none }

/-- Example stored row with exactly one previous-year column null. -/
def exampleRowPartialPrev : CompanyRow :=
  { id := 2, ein := "11-0000002", name := "Beta Org", website := none, mission := none
    taxYear := 2023, currentRevenue := 20, currentExpenses := 15
    currentAssets := 8, currentEmployeeCount := 4
    previousRevenue := some 18, previousExpenses := none
    previousAssets := some 6, previousEmployeeCount := some 4 }

/-- Example stored row with full prior-year data. -/
def exampleRowFull : CompanyRow :=
  { id := 3, ein := "11-0000003", name := "Gamma Org", website := none, mission := none
    taxYear := 2023, currentRevenue := 150000, currentExpenses := 90000
    currentAssets := 500, currentEmployeeCount := 50
    previousRevenue := some 120000, previousExpenses := some 100000
    previousAssets := some 400, previousEmployeeCount := some 40 }

/-- Example company table (already search-filtered and sorted). -/
def exampleTable : List CompanyRow := [exampleRowFull, exampleRowFull, exampleRowFull]

/-- Example canonical record used to exercise the persistence layer. -/
def exampleRecord : ParsedRecord :=
  { company :=
      { ein := "12-3456789", name := "Delta Org", website := none, mission := none
        taxYear := 2023, currentRevenue := 10, currentExpenses := 5
        currentAssets := 3, currentEmployeeCount := 7
        previousRevenue := 1, previousExpenses := 2
        previousAssets := 3, previousEmployeeCount := 4 }
    personnel := [⟨"Jane Roe", "CEO", 123⟩]
    expenses := [⟨"Travel", 50⟩] }

/-- The empty database. -/
def emptyDB : DB := ⟨[], [], [], 1⟩

/-! ## Helper lemmas (shared) -/

/-- The absolute-change helper is defined on every non-null previous
value. -/
theorem calculateAbsoluteChange_isSome (c p : ℚ) :
    (calculateAbsoluteChange c (some p)).isSome := rfl

/-- The percentage-change helper is defined on every non-null previous
value (both the zero-guard branch and the division branch produce a
number). -/
theorem calculatePercentageChange_isSome (c p : ℚ) :
    (calculatePercentageChange c (some p)).isSome := by
  by_cases hp : p = 0 <;> simp [calculatePercentageChange, hp]

/-- The first match found equals the head of the filtered list. -/
theorem find_eq_filter_head {α : Type} (p : α → Bool) (l : List α) :
    l.find? p = (l.filter p).head? := by
  induction l with
  | nil => rfl
  | cons a t ih =>
    by_cases h : p a
    · rw [List.find?_cons_of_pos _ h, List.filter_cons_of_pos h, List.head?_cons]
    · rw [List.find?_cons_of_neg _ (by simpa using h), List.filter_cons_of_neg (by simpa using h), ih]

/-- Updating the row bearing an EIN in place (as the conditional map of
the upsert does) leaves exactly one row with that EIN — the replacement
of the row that `find?` located — and preserves pairwise-distinct EINs. -/
theorem replace_row_filter (l : List CompanyRow) (e : String) (f : ℕ → CompanyRow)
    (hf : ∀ i, (f i).ein = e)
    (hp : l.Pairwise (fun a b => a.ein ≠ b.ein))
    (x : CompanyRow) (hx : l.find? (fun r => r.ein == e) = some x) :
    (l.map (fun r => if r.ein == e then f r.id else r)).filter (fun r => r.ein == e) =
      [f x.id] ∧
    (l.map (fun r => if r.ein == e then f r.id else r)).Pairwise
      (fun a b => a.ein ≠ b.ein) := by
  induction l with
  | nil => simp at hx
  | cons a t ih =>
    obtain ⟨ha, ht⟩ := List.pairwise_cons.mp hp
    by_cases h : a.ein = e
    · have hxa : x = a := by
        rw [List.find?_cons_of_pos _ (by simpa using h)] at hx
        exact (Option.some.injEq _ _ ▸ hx).symm
      have htne : ∀ r ∈ t, ¬(r.ein = e) := by
        intro r hr hre
        exact ha r hr (h.trans hre.symm)
      have htmap : t.map (fun r => if r.ein == e then f r.id else r) = t := by
        conv_rhs => rw [← List.map_id t]
        apply List.map_congr_left
        intro r hr
        simp [htne r hr]
      constructor
      · rw [List.map_cons, htmap, if_pos (by simpa using h), List.filter_cons,
          if_pos (by simpa using hf a.id)]
        have : t.filter (fun r => r.ein == e) = [] := by
          apply List.filter_eq_nil_iff.mpr
          intro r hr
          simpa using htne r hr
        rw [this, hxa]
      · rw [List.map_cons, htmap, if_pos (by simpa using h)]
        apply List.pairwise_cons.mpr
        refine ⟨?_, ht⟩
        intro b hb
        rw [hf a.id]
        exact fun hc => htne b hb hc.symm
    · have hx' : t.find? (fun r => r.ein == e) = some x := by
        rwa [List.find?_cons_of_neg _ (by simpa using h)] at hx
      obtain ⟨ihf, ihp⟩ := ih ht hx'
      constructor
      · rw [List.map_cons, if_neg (by simpa using h), List.filter_cons,
          if_neg (by simpa using h)]
        exact ihf
      · rw [List.map_cons, if_neg (by simpa using h)]
        apply List.pairwise_cons.mpr
        refine ⟨?_, ihp⟩
        intro b hb
        obtain ⟨s, hs, hmap⟩ := List.mem_map.mp hb
        by_cases hse : s.ein = e
        · rw [if_pos (by simpa using hse)] at hmap
          rw [← hmap, hf s.id]
          exact h
        · rw [if_neg (by simpa using hse)] at hmap
          rw [← hmap]
          exact ha s hs

/-- Appending a fresh row to a table that holds no row with its EIN
leaves exactly one row with that EIN, preserving distinctness. -/
theorem append_row_filter (l : List CompanyRow) (e : String)
    (hnone : l.find? (fun r => r.ein == e) = none) (nw : CompanyRow) (hnew : nw.ein = e)
    (hp : l.Pairwise (fun a b => a.ein ≠ b.ein)) :
    ((l ++ [nw]).filter (fun r => r.ein == e) = [nw]) ∧
    (l ++ [nw]).Pairwise (fun a b => a.ein ≠ b.ein) := by
  have hne : ∀ r ∈ l, ¬(r.ein = e) := by
    intro r hr
    have := List.find?_eq_none.mp hnone r hr
    simpa using this
  constructor
  · rw [List.filter_append]
    have h1 : l.filter (fun r => r.ein == e) = [] := by
      apply List.filter_eq_nil_iff.mpr
      intro a ha
      simpa using hne a ha
    simp [h1, hnew]
  · rw [List.pairwise_append]
    refine ⟨hp, List.pairwise_singleton _ _, ?_⟩
    intro a ha b hb
    simp only [List.mem_singleton] at hb
    subst hb
    rw [hnew]
    exact hne a ha

/-- Delete-then-insert for child rows: after removing every row matched
by the scope predicate and appending rows that all match it, filtering
by the scope returns exactly the appended rows. -/
theorem filter_scoped_replace {α : Type} (old nw : List α) (p : α → Bool)
    (hnew : ∀ a ∈ nw, p a = true) :
    ((old.filter (fun a => !(p a))) ++ nw).filter p = nw := by
  rw [List.filter_append]
  have h1 : (old.filter (fun a => !(p a))).filter p = [] := by
    apply List.filter_eq_nil_iff.mpr
    intro a ha
    have := List.of_mem_filter ha
    simpa using this
  rw [h1, List.filter_eq_self.mpr hnew, List.nil_append]

/-- Specification of the upsert: afterwards, exactly one row carries the
record's EIN and it is `rowOfRecord` at the returned id; EIN
distinctness is preserved and the child tables are untouched. -/
theorem upsertCompany_spec (c : CompanyData) (nowYear : ℚ) (db : DB)
    (hp : db.companies.Pairwise (fun a b => a.ein ≠ b.ein)) :
    (upsertCompany c nowYear db).1.companies.filter (fun r => r.ein == c.ein) =
      [rowOfRecord (upsertCompany c nowYear db).2 nowYear c] ∧
    (upsertCompany c nowYear db).1.companies.Pairwise (fun a b => a.ein ≠ b.ein) ∧
    (upsertCompany c nowYear db).1.personnel = db.personnel ∧
    (upsertCompany c nowYear db).1.expenses = db.expenses := by
  unfold upsertCompany
  rcases hfind : db.companies.find? (fun r => r.ein == c.ein) with _ | x <;>
    simp only [hfind]
  · obtain ⟨h1, h2⟩ := append_row_filter db.companies c.ein hfind
      (rowOfRecord db.nextId nowYear c) rfl hp
    exact ⟨h1, h2, by trivial, by trivial⟩
  · obtain ⟨h1, h2⟩ := replace_row_filter db.companies c.ein
      (fun i => rowOfRecord i nowYear c) (fun _ => rfl) hp x hfind
    exact ⟨h1, h2, by trivial, by trivial⟩

/-- The id returned by the upsert when a row is found is that row's. -/
theorem upsert_id_of_find (c : CompanyData) (nowYear : ℚ) (db : DB) (x : CompanyRow)
    (hfind : db.companies.find? (fun r => r.ein == c.ein) = some x) :
    (upsertCompany c nowYear db).2 = x.id := by
  unfold upsertCompany
  rw [hfind]

/-- One run of `saveToDatabase`: it succeeds for a truthy EIN, leaves
exactly one parent row with that EIN (the record's scalars at the upsert
id), preserves EIN distinctness, and leaves the child rows scoped to
that id equal to exactly the record's mapped children. -/
theorem saveToDatabase_spec (rec : ParsedRecord) (nowYear : ℚ) (db : DB)
    (he : rec.company.ein ≠ "")
    (hp : db.companies.Pairwise (fun a b => a.ein ≠ b.ein)) :
    ∃ db1,
      saveToDatabase rec nowYear db = .ok db1 ∧
      db1.companies = (upsertCompany rec.company nowYear db).1.companies ∧
      db1.companies.filter (fun r => r.ein == rec.company.ein) =
        [rowOfRecord (upsertCompany rec.company nowYear db).2 nowYear rec.company] ∧
      db1.companies.Pairwise (fun a b => a.ein ≠ b.ein) ∧
      db1.personnel.filter (fun p => p.companyId == (upsertCompany rec.company nowYear db).2) =
        rec.personnel.map
          (personnelRowOf (upsertCompany rec.company nowYear db).2 rec.company.taxYear) ∧
      db1.expenses.filter (fun e2 => e2.companyId == (upsertCompany rec.company nowYear db).2) =
        rec.expenses.map
          (expenseRowOf (upsertCompany rec.company nowYear db).2 rec.company.taxYear) := by
  obtain ⟨h1, h2, h3, h4⟩ := upsertCompany_spec rec.company nowYear db hp
  have hsave : saveToDatabase rec nowYear db = Except.ok
      { companies := (upsertCompany rec.company nowYear db).1.companies
        personnel := ((upsertCompany rec.company nowYear db).1.personnel.filter
            (fun p => !(p.companyId == (upsertCompany rec.company nowYear db).2))) ++
          rec.personnel.map (personnelRowOf (upsertCompany rec.company nowYear db).2
            rec.company.taxYear)
        expenses := ((upsertCompany rec.company nowYear db).1.expenses.filter
            (fun e2 => !(e2.companyId == (upsertCompany rec.company nowYear db).2))) ++
          rec.expenses.map (expenseRowOf (upsertCompany rec.company nowYear db).2
            rec.company.taxYear)
        nextId := (upsertCompany rec.company nowYear db).1.nextId } := by
    unfold saveToDatabase
    rw [if_neg he]
  refine ⟨_, hsave, rfl, h1, h2, ?_, ?_⟩
  · exact filter_scoped_replace _ _ _ (by
      intro a ha
      obtain ⟨s, _, hmap⟩ := List.mem_map.mp ha
      rw [← hmap]
      simp [personnelRowOf])
  · exact filter_scoped_replace _ _ _ (by
      intro a ha
      obtain ⟨s, _, hmap⟩ := List.mem_map.mp ha
      rw [← hmap]
      simp [expenseRowOf])

/-- A row written for a canonical record has every previous-year column
non-null, and every delta component computed. -/
theorem rowOfRecord_prior (i : ℕ) (nowYear : ℚ) (c : CompanyData) :
    hasPreviousData (rowOfRecord i nowYear c) = true ∧
    allDeltasComputed (computeDeltas (rowOfRecord i nowYear c)) = true := by
  refine ⟨rfl, ?_⟩
  simp [allDeltasComputed, computeDeltas, hasPreviousData, rowOfRecord,
    calculateAbsoluteChange, calculatePercentageChange_isSome]

/-- After the upsert, some row carries the record's EIN, and every row
carrying it is `rowOfRecord` at some id. -/
theorem upsertCompany_rows (c : CompanyData) (nowYear : ℚ) (db : DB) :
    (∃ r ∈ (upsertCompany c nowYear db).1.companies, r.ein = c.ein) ∧
    ∀ r ∈ (upsertCompany c nowYear db).1.companies, r.ein = c.ein →
      ∃ i, r = rowOfRecord i nowYear c := by
  unfold upsertCompany
  rcases hfind : db.companies.find? (fun r => r.ein == c.ein) with _ | x <;>
    simp only [hfind]
  · constructor
    · exact ⟨rowOfRecord db.nextId nowYear c, by simp, rfl⟩
    · intro r hr hre
      rcases List.mem_append.mp hr with h | h
      · exact absurd hre (by simpa using List.find?_eq_none.mp hfind r h)
      · simp only [List.mem_singleton] at h
        exact ⟨db.nextId, h⟩
  · have hx := List.mem_of_find?_eq_some hfind
    have hxe : x.ein = c.ein := by simpa using List.find?_some hfind
    constructor
    · refine ⟨rowOfRecord x.id nowYear c, ?_, rfl⟩
      have hmem := List.mem_map_of_mem
        (fun r => if r.ein == c.ein then rowOfRecord r.id nowYear c else r) hx
      simpa [hxe] using hmem
    · intro r hr hre
      obtain ⟨s, hs, hmap⟩ := List.mem_map.mp hr
      by_cases hse : s.ein = c.ein
      · rw [if_pos (by simpa using hse)] at hmap
        exact ⟨s.id, hmap.symm⟩
      · rw [if_neg (by simpa using hse)] at hmap
        rw [← hmap] at hre
        exact absurd hre hse

/-! ## Claim theorems -/

/-- Claim C5: for every pair of numbers, a zero previous value yields a
percentage delta of 100 when current is positive and 0 otherwise (a
defined number in every case), and a non-zero previous value yields
exactly (current − previous) / previous × 100. -/
theorem calculatePercentageChange_spec (current p : ℚ) :
    calculatePercentageChange current (some 0) = some (if 0 < current then 100 else 0) ∧
    (p ≠ 0 → calculatePercentageChange current (some p) = some ((current - p) / p * 100)) := by
  constructor
  · simp [calculatePercentageChange]
  · intro hp
    simp [calculatePercentageChange, hp]

/-- Witness for C5 at current = 50, previous = 2. -/
theorem calculatePercentageChange_spec_witness :
    (2 : ℚ) ≠ 0 ∧ calculatePercentageChange 50 (some 2) = some 2400 := by
  refine ⟨by norm_num, ?_⟩
  have h := (calculatePercentageChange_spec 50 2).2 (by norm_num)
  rw [h]
  norm_num

/-- Claim C3 (code evaluated at the failing input): for a stored row
with no prior-year data, the detail endpoint's analytics computation
throws a TypeError (from `null.toFixed(2)` on the asset percentage)
instead of propagating `null`, so the operation answers 500 rather than
succeeding; and the null employee percentage is passed into the
staffing-badge ladder, which labels it "Downsizing" instead of a
distinct N/A state. -/
theorem detail_analytics_throws_on_no_prior :
    buildAnalytics exampleRowNoPrev = .error .typeError ∧
    getCompanyByIdStatus exampleRowNoPrev = 500 ∧
    calculateStaffingGrowth none = "Downsizing" :=
  ⟨rfl, rfl, rfl⟩

/-- Claim C1 (code evaluated at the failing inputs): a single document
whose persistence fails makes `processDataset` throw a TypeError (the
catch block's `stats.errors++` turns the error array into the number 1,
so `stats.errors.push` throws) instead of recording the error and
completing; and a document that fails to parse is skipped without any
entry in the error list (the run completes with an empty error list and
`saved = 0`). -/
theorem processDataset_not_failure_isolating :
    processDataset ⟨true, true, [DocOutcome.saveFail "db constraint"], none⟩ =
      (.threw .typeError, ⟨true, false⟩) ∧
    processDataset ⟨true, true, [DocOutcome.parseFail], none⟩ =
      (.completed ⟨1, 1, 0, .list []⟩, ⟨true, true⟩) := by
  constructor <;> rfl

/-- Claim C6 (code evaluated at the failing inputs): when extraction
fails, and when processing aborts after extraction, the expanded working
directory is not removed before `processDataset` throws — only the
downloaded archive is unlinked. -/
theorem processDataset_leaks_extract_dir :
    (processDataset ⟨true, false, [], none⟩).2 = ⟨true, false⟩ ∧
    (processDataset ⟨true, true, [DocOutcome.saveFail "constraint violation"], some 5⟩).2 =
      ⟨true, false⟩ := by
  constructor <;> rfl

/-- Counterexample to claim C8: an officer entry with no name fields at
all does not get discarded — the template literal renders the two null
texts as "null null", which is truthy and distinct from 'Unknown', so a
personnel record is emitted for an entry whose name never resolved. -/
theorem extractPersonnel_nameless_emitted :
    extractPersonnel (JSVal.obj [("Form990PartVIISectionAGrp", JSVal.obj [])]) =
      [⟨JSVal.str "null null", JSVal.str "Unknown", 0⟩] := by
  have h : extractPersonnel (JSVal.obj [("Form990PartVIISectionAGrp", JSVal.obj [])]) =
      [⟨JSVal.str "null null", JSVal.str "Unknown", 0 + 0 + 0⟩] := rfl
  rw [h]
  norm_num

/-- Claim C2 (amended): for every stored row with any one of the four
previous-year fields null or absent, both read operations compute all
four delta pairs as null/null, never a mix — the paginated listing
returns them, while the single-record detail operation then fails with
HTTP 500 in its analytics step before responding; when all four
previous-year fields are non-null, all eight delta components are
computed and the detail operation succeeds. -/
theorem deltas_gated_uniformly (r : CompanyRow) :
    ((r.previousRevenue = none ∨ r.previousExpenses = none ∨
      r.previousAssets = none ∨ r.previousEmployeeCount = none) →
      listingDeltas r = nullDeltas ∧ detailDeltas r = nullDeltas ∧
      getCompanyByIdStatus r = 500) ∧
    ((r.previousRevenue.isSome ∧ r.previousExpenses.isSome ∧
      r.previousAssets.isSome ∧ r.previousEmployeeCount.isSome) →
      allDeltasComputed (listingDeltas r) = true ∧
      detailDeltas r = listingDeltas r ∧
      getCompanyByIdStatus r = 200) := by
  constructor
  · intro h
    have hfalse : hasPreviousData r = false := by
      rcases h with h | h | h | h <;> simp [hasPreviousData, h]
    have hl : listingDeltas r = nullDeltas := by
      simp [listingDeltas, computeDeltas, hfalse, nullDeltas]
    have hd : detailDeltas r = nullDeltas := hl
    refine ⟨hl, hd, ?_⟩
    simp [getCompanyByIdStatus, buildAnalytics, hd, nullDeltas]
  · rintro ⟨h1, h2, h3, h4⟩
    have htrue : hasPreviousData r = true := by
      simp [hasPreviousData, h1, h2, h3, h4]
    obtain ⟨a, ha⟩ := Option.isSome_iff_exists.mp h1
    obtain ⟨b, hb⟩ := Option.isSome_iff_exists.mp h2
    obtain ⟨c, hc⟩ := Option.isSome_iff_exists.mp h3
    obtain ⟨d, hd4⟩ := Option.isSome_iff_exists.mp h4
    refine ⟨?_, rfl, ?_⟩
    · simp [allDeltasComputed, listingDeltas, computeDeltas, htrue, ha, hb, hc, hd4,
        calculateAbsoluteChange, calculatePercentageChange_isSome]
    · have hassets : (detailDeltas r).assets.percentage =
          calculatePercentageChange r.currentAssets r.previousAssets := by
        simp [detailDeltas, computeDeltas, htrue]
      rw [hc] at hassets
      obtain ⟨q, hq⟩ :=
        Option.isSome_iff_exists.mp (calculatePercentageChange_isSome r.currentAssets c)
      simp [getCompanyByIdStatus, buildAnalytics, hassets, hq]

/-- Counterexample to claim C2 as stated: a stored record with exactly
one previous-year field null, for which the single-record detail
operation does not return the four null delta pairs — the analytics
computation that follows the delta block throws, so the operation
answers HTTP 500 instead of returning them. -/
theorem detail_unreturned_null_deltas :
    hasPreviousData exampleRowPartialPrev = false ∧
    getCompanyByIdStatus exampleRowPartialPrev = 500 := ⟨rfl, rfl⟩

/-- Witness for C2 at a row with all previous fields null and a row
with full prior data. -/
theorem deltas_gated_uniformly_witness :
    (listingDeltas exampleRowNoPrev = nullDeltas ∧ detailDeltas exampleRowNoPrev = nullDeltas ∧
      getCompanyByIdStatus exampleRowNoPrev = 500) ∧
    (allDeltasComputed (listingDeltas exampleRowFull) = true ∧
      detailDeltas exampleRowFull = listingDeltas exampleRowFull ∧
      getCompanyByIdStatus exampleRowFull = 200) :=
  ⟨(deltas_gated_uniformly exampleRowNoPrev).1 (Or.inl rfl),
   (deltas_gated_uniformly exampleRowFull).2 ⟨rfl, rfl, rfl, rfl⟩⟩

/-- Claim C7: with both growth percentages non-null, the classification
is "Profitable" exactly when current revenue exceeds current expenses
and expense growth does not exceed revenue growth; otherwise "Scaling"
exactly when expense growth exceeds revenue growth; otherwise
"Restructuring" — the profitable-and-not-scaling branch is checked
first, then scaling, else restructuring. -/
theorem calculateClassification_spec (rev exp rp ep : ℚ) :
    (calculateClassification rev exp (some rp) (some ep) = "Profitable" ↔
      exp < rev ∧ ep ≤ rp) ∧
    (calculateClassification rev exp (some rp) (some ep) = "Scaling" ↔ rp < ep) ∧
    (calculateClassification rev exp (some rp) (some ep) = "Restructuring" ↔
      rev ≤ exp ∧ ep ≤ rp) := by
  by_cases h1 : exp < rev <;> by_cases h2 : rp < ep
  · simp [calculateClassification, h1, h2, not_le.mpr h2, not_le.mpr h1]
  · simp [calculateClassification, h1, h2, le_of_not_lt h2, not_le.mpr h1]
  · simp [calculateClassification, h1, h2, not_le.mpr h2]
  · simp [calculateClassification, h1, h2, le_of_not_lt h1, le_of_not_lt h2]

/-- Claim C8 (amended): an entry of the normalized officers collection
emits a personnel record exactly when its resolved full-name value is
truthy and not strictly equal to the string 'Unknown', where the name
resolves to the composed name field's text if truthy and otherwise to
the trimmed template interpolation of the FirstName/LastName texts in
which a null text renders as the string "null" — so an entry with no
name fields resolves to the truthy name "null null" and is emitted,
while an entry whose name resolves exactly to 'Unknown' is discarded;
emission is the only effect (discards are silent — the function has no
error channel). -/
theorem extractPersonnel_emission (irs990 : JSVal) :
    extractPersonnel irs990 = (normalizeOfficers irs990).filterMap (fun o =>
      if truthy o && truthy (resolveOfficerName o) && !isStrUnknown (resolveOfficerName o) then
        some ⟨resolveOfficerName o, resolveOfficerTitle o, officerCompensation o⟩
      else none) := by
  unfold extractPersonnel normalizeOfficers
  apply List.filterMap_congr
  intro o _
  by_cases ho : truthy o
  · simp only [ho, Bool.true_and, if_neg (by simp [ho] : ¬truthy o = false)]
    unfold resolveOfficerName resolveOfficerTitle officerCompensation
    rfl
  · have ho' : truthy o = false := by simpa using ho
    simp [ho']

/-- Claim C10: an invalid page parameter (fails to parse, or parses
below 1) or an invalid limit parameter (fails to parse, below 1, or
above 100) makes the listing return a 400 validation error without
reaching the database query; with valid parameters the query runs and
the response carries at most `limit` rows. -/
theorem getAllCompanies_validation (db : List CompanyRow) (page limit : Option String) :
    ((pageParamOk page = false ∨ limitParamOk limit = false) →
      (getAllCompanies db page limit).2 = false ∧
      ∃ m, (getAllCompanies db page limit).1 = ListResponse.badRequest m) ∧
    (pageParamOk page = true → limitParamOk limit = true →
      ∃ rows p l, jsParseInt (limit.getD "25") = some l ∧
        (getAllCompanies db page limit).1 = ListResponse.ok rows db.length p l ∧
        (getAllCompanies db page limit).2 = true ∧
        rows.length ≤ l.toNat) := by
  rcases hpg : jsParseInt (page.getD "1") with _ | p
  · constructor
    · intro _
      simp [getAllCompanies, hpg]
    · intro hp _
      simp [pageParamOk, hpg] at hp
  · rcases hlm : jsParseInt (limit.getD "25") with _ | l
    · constructor
      · intro _
        by_cases hp1 : p < 1 <;> simp [getAllCompanies, hpg, hlm, hp1]
      · intro _ hl
        simp [limitParamOk, hlm] at hl
    · constructor
      · intro h
        rcases h with h | h
        · simp only [pageParamOk, hpg, decide_eq_false_iff_not, not_le] at h
          simp [getAllCompanies, hpg, hlm, h]
        · simp only [limitParamOk, hlm, Bool.and_eq_false_iff, decide_eq_false_iff_not,
            not_le] at h
          have hcond : l < 1 ∨ 100 < l := by
            rcases h with h | h
            · exact Or.inl h
            · exact Or.inr h
          by_cases hp1 : p < 1
          · simp [getAllCompanies, hpg, hlm, hp1]
          · rcases hcond with hcd | hcd <;>
              simp [getAllCompanies, hpg, hlm, hp1, hcd]
      · intro hp hl
        simp only [pageParamOk, hpg, decide_eq_true_eq] at hp
        simp only [limitParamOk, hlm, Bool.and_eq_true, decide_eq_true_eq] at hl
        refine ⟨(db.drop ((p - 1).toNat * l.toNat)).take l.toNat, p, l, rfl, ?_, ?_, ?_⟩
        · simp [getAllCompanies, hpg, hlm, not_lt.mpr hp, not_lt.mpr hl.1, not_lt.mpr hl.2]
        · simp [getAllCompanies, hpg, hlm, not_lt.mpr hp, not_lt.mpr hl.1, not_lt.mpr hl.2]
        · exact List.length_take_le _ _

/-- Witness for C10: an unparseable page is rejected without a query;
page 1 with limit 2 over a three-row table returns two rows. -/
theorem getAllCompanies_validation_witness :
    ((getAllCompanies exampleTable (some "abc") (some "10")).2 = false ∧
      ∃ m, (getAllCompanies exampleTable (some "abc") (some "10")).1 =
        ListResponse.badRequest m) ∧
    (∃ rows p l, jsParseInt ((some "2").getD "25") = some l ∧
      (getAllCompanies exampleTable (some "1") (some "2")).1 =
        ListResponse.ok rows exampleTable.length p l ∧
      (getAllCompanies exampleTable (some "1") (some "2")).2 = true ∧
      rows.length ≤ l.toNat) :=
  ⟨(getAllCompanies_validation exampleTable (some "abc") (some "10")).1 (Or.inl (by decide)),
   (getAllCompanies_validation exampleTable (some "1") (some "2")).2 (by decide) (by decide)⟩

/-- Claim C4: persisting the same canonical record twice is idempotent —
after the second save there is exactly one organization row for the
record's EIN (the record's scalars at a stable id, never a duplicate
row), and the personnel and expense rows scoped to that row equal
exactly the second record's mapped children (replaced, not merged or
summed across the two runs). -/
theorem saveToDatabase_idempotent (rec : ParsedRecord) (nowYear : ℚ) (db : DB)
    (he : rec.company.ein ≠ "")
    (hp : db.companies.Pairwise (fun a b => a.ein ≠ b.ein)) :
    ∃ db1 db2 cid,
      saveToDatabase rec nowYear db = .ok db1 ∧
      saveToDatabase rec nowYear db1 = .ok db2 ∧
      db1.companies.filter (fun r => r.ein == rec.company.ein) =
        [rowOfRecord cid nowYear rec.company] ∧
      db2.companies.filter (fun r => r.ein == rec.company.ein) =
        [rowOfRecord cid nowYear rec.company] ∧
      db2.personnel.filter (fun p => p.companyId == cid) =
        rec.personnel.map (personnelRowOf cid rec.company.taxYear) ∧
      db2.expenses.filter (fun e2 => e2.companyId == cid) =
        rec.expenses.map (expenseRowOf cid rec.company.taxYear) := by
  obtain ⟨db1, hs1, _, hfilter1, hpair1, _, _⟩ := saveToDatabase_spec rec nowYear db he hp
  obtain ⟨db2, hs2, _, hfilter2, _, hpers2, hexp2⟩ :=
    saveToDatabase_spec rec nowYear db1 he hpair1
  have hfind1 : db1.companies.find? (fun r => r.ein == rec.company.ein) =
      some (rowOfRecord (upsertCompany rec.company nowYear db).2 nowYear rec.company) := by
    rw [find_eq_filter_head, hfilter1]
    rfl
  have hid2 : (upsertCompany rec.company nowYear db1).2 =
      (upsertCompany rec.company nowYear db).2 :=
    upsert_id_of_find rec.company nowYear db1 _ hfind1
  rw [hid2] at hfilter2 hpers2 hexp2
  exact ⟨db1, db2, (upsertCompany rec.company nowYear db).2,
    hs1, hs2, hfilter1, hfilter2, hpers2, hexp2⟩

/-- Witness for C4: the example record saved twice into the empty
database. -/
theorem saveToDatabase_idempotent_witness :
    exampleRecord.company.ein ≠ "" ∧
    (∃ db1 db2 cid,
      saveToDatabase exampleRecord 2024 emptyDB = .ok db1 ∧
      saveToDatabase exampleRecord 2024 db1 = .ok db2 ∧
      db1.companies.filter (fun r => r.ein == exampleRecord.company.ein) =
        [rowOfRecord cid 2024 exampleRecord.company] ∧
      db2.companies.filter (fun r => r.ein == exampleRecord.company.ein) =
        [rowOfRecord cid 2024 exampleRecord.company] ∧
      db2.personnel.filter (fun p => p.companyId == cid) =
        exampleRecord.personnel.map (personnelRowOf cid exampleRecord.company.taxYear) ∧
      db2.expenses.filter (fun e2 => e2.companyId == cid) =
        exampleRecord.expenses.map (expenseRowOf cid exampleRecord.company.taxYear)) :=
  ⟨by decide, saveToDatabase_idempotent exampleRecord 2024 emptyDB (by decide) List.Pairwise.nil⟩

/-- Claim C9: every canonical record the Form 990 mapper produces
carries plain numbers (default 0) in all four previous-year fields —
`extractFinancialData` is built from the total `extractNumber` — so
every organization row the ingestion pipeline writes has non-null
previous-year columns: the read endpoints' no-prior-data check never
fires on it, and all its delta pairs are computed, including for a
first-time single-year filing (whose previous fields are 0). -/
theorem ingested_rows_have_prior_data (irs990 : JSVal) (ein orgName : String)
    (website mission : Option String) (taxYear nowYear : ℚ)
    (personnelEntries : List PersonnelEntry) (expenseEntries : List ExpenseEntry) (db : DB)
    (he : ein ≠ "") :
    ∃ db2,
      saveToDatabase
        ⟨mappedCompany ein orgName website mission taxYear (extractFinancialData irs990),
          personnelEntries, expenseEntries⟩ nowYear db = .ok db2 ∧
      (∃ r ∈ db2.companies, r.ein = ein) ∧
      ∀ r ∈ db2.companies, r.ein = ein →
        hasPreviousData r = true ∧
        allDeltasComputed (listingDeltas r) = true ∧
        allDeltasComputed (detailDeltas r) = true := by
  have he' : (mappedCompany ein orgName website mission taxYear
      (extractFinancialData irs990)).ein ≠ "" := he
  obtain ⟨hex, hall⟩ :=
    upsertCompany_rows (mappedCompany ein orgName website mission taxYear
      (extractFinancialData irs990)) nowYear db
  refine ⟨_, by
      unfold saveToDatabase
      rw [if_neg he'], ?_, ?_⟩
  · exact hex
  · intro r hr hre
    obtain ⟨i, hi⟩ := hall r hr hre
    subst hi
    obtain ⟨hprev, hdeltas⟩ := rowOfRecord_prior i nowYear
      (mappedCompany ein orgName website mission taxYear (extractFinancialData irs990))
    exact ⟨hprev, hdeltas, hdeltas⟩

/-- Witness for C9: a document with no financial fields at all, mapped
and saved into the empty database. -/
theorem ingested_rows_have_prior_data_witness :
    ("12-0000009" : String) ≠ "" ∧
    (∃ db2,
      saveToDatabase
        ⟨mappedCompany "12-0000009" "Epsilon Org" none none 2023
            (extractFinancialData (JSVal.obj [])), [], []⟩ 2024 emptyDB = .ok db2 ∧
      (∃ r ∈ db2.companies, r.ein = "12-0000009") ∧
      ∀ r ∈ db2.companies, r.ein = "12-0000009" →
        hasPreviousData r = true ∧
        allDeltasComputed (listingDeltas r) = true ∧
        allDeltasComputed (detailDeltas r) = true) :=
  ⟨by decide, ingested_rows_have_prior_data (JSVal.obj []) "12-0000009" "Epsilon Org"
    none none 2023 2024 [] [] emptyDB (by decide)⟩

end Analyzer
